import Mathlib

/-!
Shallow embedding of the api-group-chat signaling server.

Chat side: `ChatService` (src/modules/chat/chat.service.ts) is embedded as pure
functions over `ChatState`; `ChatGateway` (src/modules/chat/chat.gateway.ts) as
functions `GatewayState → ... → GatewayState × List Emission`, where `Emission`
records the socket.io emits a handler performs (payload contents are abstracted
to event names and error messages; no verified property depends on payload
bodies beyond the error message text).

Voice side: `VoiceService` (voice.service.ts) is embedded over `VoiceState`.
The mediasoup media engine is external to the repository; it is modelled at its
interface boundary: engine objects (routers, transports, producers, consumers)
are records carrying a process-unique numeric id drawn from a counter
`nextId`, `close()` calls append the closed object's id to `closedIds`,
`transport.produce` yields an unpaused producer and `transport.consume` with
`paused: true` yields a paused consumer, and `router.canConsume` is an
arbitrary boolean function passed in as a parameter `cc`.

JavaScript `Map`s are modelled as association lists: `get` is the first match,
`set` overwrites in place or appends, `delete` filters the key out. JS `Set`s
are modelled as duplicate-free lists with append-if-absent insertion.
-/

namespace ApiGroupChat

/-- JS `Map.get`: first binding of the key, if any. -/
def mget {κ α : Type} [DecidableEq κ] : List (κ × α) → κ → Option α
  | [], _ => none
  | (k', v) :: rest, k => if k' = k then some v else mget rest k

/-- JS `Map.set`: overwrite the binding in place, or append a new one. -/
def mset {κ α : Type} [DecidableEq κ] : List (κ × α) → κ → α → List (κ × α)
  | [], k, v => [(k, v)]
  | (k', v') :: rest, k, v =>
    if k' = k then (k, v) :: rest else (k', v') :: mset rest k v

/-- JS `Map.delete`: drop every binding of the key. -/
def mdel {κ α : Type} [DecidableEq κ] (m : List (κ × α)) (k : κ) : List (κ × α) :=
  m.filter (fun p => !(decide (p.1 = k)))

/-- JS `Set.add`: append the element when absent. -/
def sadd (s : List String) (x : String) : List String :=
  if s.contains x then s else s ++ [x]

/-- Message record from chat.service.ts (`Date` timestamps become `Nat`). -/
structure Message where
  userId : String
  userName : String
  message : String
  timestamp : Nat
deriving DecidableEq, Repr

/-- RoomUser record from chat.service.ts. -/
structure RoomUser where
  id : String
  name : String
deriving DecidableEq, Repr

/-- Room record from chat.service.ts. `allowedUsers` is always initialized to an
empty set by `createRoom`, so it is modelled as a plain (non-optional) list. -/
structure Room where
  users : List (String × RoomUser)
  messages : List Message
  isPrivate : Bool
  password : Option String
  allowedUsers : List String
  creatorId : String
deriving DecidableEq, Repr

/-- The two private maps of `ChatService`. -/
structure ChatState where
  rooms : List (String × Room)
  userNames : List (String × String)
deriving DecidableEq, Repr

def ChatState.init : ChatState := { rooms := [], userNames := [] }

/-- ChatService.createRoom: no-op when the name is already present. -/
def createRoom (s : ChatState) (roomId creatorId : String) (isPrivate : Bool)
    (password : Option String) : ChatState :=
  match mget s.rooms roomId with
  | some _ => s
  | none =>
    { s with
      rooms := mset s.rooms roomId
        ({ users := [], messages := [], isPrivate := isPrivate,
           password := password, allowedUsers := [], creatorId := creatorId }) }

/-- ChatService.setUserName. -/
def setUserName (s : ChatState) (userId userName : String) : ChatState :=
  { s with userNames := mset s.userNames userId userName }

/-- ChatService.getUserName: `this.userNames.get(userId) || User ...` — the
JS `||` falls through both on a missing binding and on the falsy empty
string. -/
def getUserName (s : ChatState) (userId : String) : String :=
  match mget s.userNames userId with
  | some n => if n = "" then "User " ++ userId.take 6 else n
  | none => "User " ++ userId.take 6

/-- ChatService.removeRoom. -/
def removeRoom (s : ChatState) (roomId : String) : ChatState :=
  { s with rooms := mdel s.rooms roomId }

/-- ChatService.addUserToRoom. -/
def addUserToRoom (s : ChatState) (roomId userId : String) : ChatState :=
  match mget s.rooms roomId with
  | none => s
  | some room =>
    { s with
      rooms := mset s.rooms roomId
        ({ room with
           users := mset room.users userId ({ id := userId, name := getUserName s userId }) }) }

/-- ChatService.removeUserFromRoom. -/
def removeUserFromRoom (s : ChatState) (roomId userId : String) : ChatState :=
  match mget s.rooms roomId with
  | none => s
  | some room =>
    { s with rooms := mset s.rooms roomId ({ room with users := mdel room.users userId }) }

/-- ChatService.addMessage. -/
def addMessage (s : ChatState) (roomId : String) (msg : Message) : ChatState :=
  match mget s.rooms roomId with
  | none => s
  | some room =>
    { s with rooms := mset s.rooms roomId ({ room with messages := room.messages ++ [msg] }) }

/-- ChatService.getRoom. -/
def getRoom (s : ChatState) (roomId : String) : Option Room :=
  mget s.rooms roomId

/-- ChatService.getRooms. -/
def getRooms (s : ChatState) : List String :=
  s.rooms.map (·.1)

/-- ChatService.getRoomsByUserId. -/
def getRoomsByUserId (s : ChatState) (userId : String) : List String :=
  (s.rooms.filter (fun p => (mget p.2.users userId).isSome)).map (·.1)

/-- ChatService.addUserToPrivateRoom: returns false (and mutates nothing) when
the room is absent or public. -/
def addUserToPrivateRoom (s : ChatState) (roomId userId : String) : ChatState × Bool :=
  match mget s.rooms roomId with
  | none => (s, false)
  | some room =>
    if room.isPrivate then
      ({ s with
         rooms := mset s.rooms roomId
           ({ room with allowedUsers := sadd room.allowedUsers userId }) }, true)
    else (s, false)

/-- ChatService.canAccessRoom. -/
def canAccessRoom (s : ChatState) (roomId userId : String) : Bool :=
  match mget s.rooms roomId with
  | none => false
  | some room => if !room.isPrivate then true else room.allowedUsers.contains userId

/-- ChatService.verifyRoomPassword. -/
def verifyRoomPassword (s : ChatState) (roomId password : String) : Bool :=
  match mget s.rooms roomId with
  | none => false
  | some room => if !room.isPrivate then false else room.password == some password

/-- ChatService.isRoomCreator. -/
def isRoomCreator (s : ChatState) (roomId userId : String) : Bool :=
  match mget s.rooms roomId with
  | none => false
  | some room => room.creatorId == userId

/-- ChatService.getRoomCreator. -/
def getRoomCreator (s : ChatState) (roomId : String) : Option String :=
  (mget s.rooms roomId).map (·.creatorId)

/-- One socket.io emit performed by a gateway handler. Payload bodies are
abstracted: `toClient` keeps only an error-message string (empty when the
event carries no error), `toGroup` and `toAll` keep the event name. -/
inductive Emission where
  | toClient (clientId : String) (event : String) (msg : String)
  | toGroup (groupId : String) (event : String)
  | toAll (event : String)
deriving DecidableEq, Repr

/-- ChatGateway state plus the transport-level bookkeeping it relies on:
`userRooms` is the gateway's private map, `groups` is socket.io's broadcast
group membership (pairs of client id and group id, mutated by
`client.join` and `client.leave`), `connected` is the set of attached
sockets (maintained by the transport on connect and disconnect and read by
`server.sockets.sockets.get`). -/
structure GatewayState where
  svc : ChatState
  userRooms : List (String × String)
  groups : List (String × String)
  connected : List String
deriving DecidableEq, Repr

def GatewayState.init : GatewayState :=
  { svc := ChatState.init, userRooms := [], groups := [], connected := [] }

/-- socket.io `client.join(room)`. -/
def gjoin (g : List (String × String)) (c room : String) : List (String × String) :=
  if g.contains (c, room) then g else g ++ [(c, room)]

/-- socket.io `client.leave(room)`. -/
def gleave (g : List (String × String)) (c room : String) : List (String × String) :=
  g.filter (fun p => !(decide (p = (c, room))))

/-- ChatGateway.handleConnection: emits `connected` and `room_list`; the
transport registers the socket. -/
def handleConnection (g : GatewayState) (c : String) : GatewayState × List Emission :=
  ({ g with connected := sadd g.connected c },
   [Emission.toClient c "connected" "", Emission.toClient c "room_list" ""])

/-- ChatGateway.handleDisconnect: looks up the client's current room in
`userRooms` and, when one is recorded, removes the client from it and
re-broadcasts `room_users`; the transport deregisters the socket. -/
def handleDisconnect (g : GatewayState) (c : String) : GatewayState × List Emission :=
  let g' : GatewayState := { g with connected := g.connected.filter (fun x => !(decide (x = c))) }
  match mget g'.userRooms c with
  | none => (g', [])
  | some currentRoom =>
    ({ g' with
       svc := removeUserFromRoom g'.svc currentRoom c,
       groups := gleave g'.groups c currentRoom },
     [Emission.toGroup currentRoom "room_users"])

/-- ChatGateway.handleSetUserName. -/
def handleSetUserName (g : GatewayState) (c userName : String) : GatewayState × List Emission :=
  let g' : GatewayState := { g with svc := setUserName g.svc c userName }
  match mget g'.userRooms c with
  | none => (g', [])
  | some currentRoom => (g', [Emission.toGroup currentRoom "room_users"])

/-- ChatGateway.handleCreateRoom: creates the room and, when it is private,
adds the creator to its allow-list. -/
def handleCreateRoom (g : GatewayState) (c roomName : String) (isPrivate : Bool)
    (password : Option String) : GatewayState × List Emission :=
  let svc := createRoom g.svc roomName c isPrivate password
  let svc := if isPrivate then (addUserToPrivateRoom svc roomName c).1 else svc
  ({ g with svc := svc }, [Emission.toAll "room_created"])

/-- ChatGateway.handleGetRooms: read-only. -/
def handleGetRooms (g : GatewayState) (c : String) : GatewayState × List Emission :=
  (g, [Emission.toClient c "room_list" ""])

/-- Tail of ChatGateway.handleJoinRoom after the access checks: add the user,
join the broadcast group, broadcast `room_users`. Note that the source does
not record the joined room in `userRooms`. -/
def joinRoomFinish (g : GatewayState) (c roomId : String) : GatewayState × List Emission :=
  ({ g with
     svc := addUserToRoom g.svc roomId c,
     groups := gjoin g.groups c roomId },
   [Emission.toGroup roomId "room_users"])

/-- ChatGateway.handleJoinRoom. The password guard is the JS expression
`password && verifyRoomPassword(roomId, password)`: an absent or empty
candidate is falsy and never reaches the comparison. -/
def handleJoinRoom (g : GatewayState) (c roomId : String) (password : Option String) :
    GatewayState × List Emission :=
  match getRoom g.svc roomId with
  | none => (g, [Emission.toClient c "error" "Room not found"])
  | some room =>
    if room.isPrivate && !canAccessRoom g.svc roomId c then
      let passOk := match password with
        | some p => p != "" && verifyRoomPassword g.svc roomId p
        | none => false
      if passOk then
        joinRoomFinish { g with svc := (addUserToPrivateRoom g.svc roomId c).1 } c roomId
      else (g, [Emission.toClient c "error" "Unauthorized"])
    else joinRoomFinish g c roomId

/-- ChatGateway.handleLeaveRoom. -/
def handleLeaveRoom (g : GatewayState) (c roomId : String) : GatewayState × List Emission :=
  ({ g with
     svc := removeUserFromRoom g.svc roomId c,
     groups := gleave g.groups c roomId,
     userRooms := mdel g.userRooms c },
   [Emission.toGroup roomId "room_users"])

/-- ChatGateway.handleSendMessage (`new Date()` is supplied as the event's
timestamp parameter). -/
def handleSendMessage (g : GatewayState) (c roomId msgText : String) (ts : Nat) :
    GatewayState × List Emission :=
  let msg : Message :=
    { userId := c, userName := getUserName g.svc c, message := msgText, timestamp := ts }
  ({ g with svc := addMessage g.svc roomId msg }, [Emission.toGroup roomId "new_message"])

/-- ChatGateway.handleAddUserToPrivateRoom. -/
def handleAddUserToPrivateRoom (g : GatewayState) (c roomId userId : String) :
    GatewayState × List Emission :=
  match getRoom g.svc roomId with
  | none => (g, [Emission.toClient c "error" "Invalid room"])
  | some room =>
    if room.isPrivate then
      ({ g with svc := (addUserToPrivateRoom g.svc roomId userId).1 },
       [Emission.toAll "room_list_updated"])
    else (g, [Emission.toClient c "error" "Invalid room"])

/-- ChatGateway.handleRemoveRoom. -/
def handleRemoveRoom (g : GatewayState) (c roomId : String) : GatewayState × List Emission :=
  if isRoomCreator g.svc roomId c then
    ({ g with svc := removeRoom g.svc roomId }, [Emission.toAll "room_removed"])
  else (g, [Emission.toClient c "error" "Apenas o criador pode deletar a sala"])

/-- ChatGateway.handleRemoveUserFromRoom: the socket-side cleanup on the
removed user runs only when that user's socket is still connected. -/
def handleRemoveUserFromRoom (g : GatewayState) (c roomId userId : String) :
    GatewayState × List Emission :=
  if isRoomCreator g.svc roomId c then
    let g' : GatewayState := { g with svc := removeUserFromRoom g.svc roomId userId }
    if g'.connected.contains userId then
      ({ g' with groups := gleave g'.groups userId roomId },
       [Emission.toClient userId "removed_from_room" "", Emission.toGroup roomId "room_users"])
    else (g', [Emission.toGroup roomId "room_users"])
  else (g, [Emission.toClient c "error" "Apenas o criador pode remover usuários"])

/-- The chat gateway's inbound event alphabet. -/
inductive ChatEvent where
  | connectEv (c : String)
  | disconnectEv (c : String)
  | setNameEv (c userName : String)
  | createRoomEv (c roomName : String) (isPrivate : Bool) (password : Option String)
  | getRoomsEv (c : String)
  | joinRoomEv (c roomId : String) (password : Option String)
  | leaveRoomEv (c roomId : String)
  | sendMessageEv (c roomId msgText : String) (ts : Nat)
  | addPrivateEv (c roomId userId : String)
  | removeRoomEv (c roomId : String)
  | removeUserEv (c roomId userId : String)
deriving DecidableEq, Repr

/-- Dispatch of one inbound chat event to its handler. -/
def chatStep (g : GatewayState) : ChatEvent → GatewayState × List Emission
  | .connectEv c => handleConnection g c
  | .disconnectEv c => handleDisconnect g c
  | .setNameEv c n => handleSetUserName g c n
  | .createRoomEv c n priv pw => handleCreateRoom g c n priv pw
  | .getRoomsEv c => handleGetRooms g c
  | .joinRoomEv c r pw => handleJoinRoom g c r pw
  | .leaveRoomEv c r => handleLeaveRoom g c r
  | .sendMessageEv c r m ts => handleSendMessage g c r m ts
  | .addPrivateEv c r u => handleAddUserToPrivateRoom g c r u
  | .removeRoomEv c r => handleRemoveRoom g c r
  | .removeUserEv c r u => handleRemoveUserFromRoom g c r u

/-- State component of one dispatch step. -/
def chatStepState (g : GatewayState) (e : ChatEvent) : GatewayState :=
  (chatStep g e).1

/-- Gateway states reachable from process start by inbound chat events. -/
inductive ChatReachable : GatewayState → Prop where
  | init : ChatReachable GatewayState.init
  | step (g : GatewayState) (e : ChatEvent) : ChatReachable g → ChatReachable (chatStepState g e)

/-- Run a list of inbound events. -/
def chatRun (g : GatewayState) (es : List ChatEvent) : GatewayState :=
  es.foldl chatStepState g

/-- A mediasoup router, modelled by its engine id. -/
structure RouterModel where
  id : Nat
deriving DecidableEq, Repr

/-- A mediasoup WebRtcTransport: engine id plus DTLS-connected flag. -/
structure TransportModel where
  id : Nat
  connected : Bool
deriving DecidableEq, Repr

/-- A mediasoup producer: engine id plus paused flag. `transport.produce`
creates it unpaused; `pause`/`resume` toggle the flag. -/
structure ProducerModel where
  id : Nat
  paused : Bool
deriving DecidableEq, Repr

/-- A mediasoup consumer: engine id, the producer it consumes, paused flag.
Engine-negotiated payload fields (kind, rtpParameters) are omitted: no claim
references them. -/
structure ConsumerModel where
  id : Nat
  producerId : Nat
  paused : Bool
deriving DecidableEq, Repr

/-- VoiceUser record from voice.service.ts. -/
structure VoiceUser where
  userId : String
  userName : String
  producerTransport : Option TransportModel
  consumerTransport : Option TransportModel
  producer : Option ProducerModel
  consumers : List (Nat × ConsumerModel)
  isMuted : Bool
deriving DecidableEq, Repr

/-- VoiceRoom record from voice.service.ts. -/
structure VoiceRoom where
  roomId : String
  router : RouterModel
  users : List (String × VoiceUser)
deriving DecidableEq, Repr

/-- VoiceService state plus the engine model: `nextId` allocates fresh engine
ids, `closedIds` records every engine object whose `close()` was called. -/
structure VoiceState where
  nextId : Nat
  voiceRooms : List (String × VoiceRoom)
  closedIds : List Nat
deriving DecidableEq, Repr

def VoiceState.init : VoiceState := { nextId := 0, voiceRooms := [], closedIds := [] }

/-- Transport direction argument (`'send' | 'recv'`). -/
inductive Direction where
  | send
  | recv
deriving DecidableEq, Repr

/-- `'audio' | 'video'`. -/
inductive MediaKind where
  | audio
  | video
deriving DecidableEq, Repr

/-- VoiceService.getOrCreateRouter: reuse the room's router, or create the room
entry with a fresh router. -/
def getOrCreateRouter (st : VoiceState) (roomId : String) : VoiceState × RouterModel :=
  match mget st.voiceRooms roomId with
  | some voiceRoom => (st, voiceRoom.router)
  | none =>
    let router : RouterModel := { id := st.nextId }
    ({ st with
       nextId := st.nextId + 1,
       voiceRooms := mset st.voiceRooms roomId
         ({ roomId := roomId, router := router, users := [] }) },
     router)

/-- VoiceService.getRouterRtpCapabilities: returns the (possibly freshly
created) router, standing in for its rtpCapabilities payload. -/
def getRouterRtpCapabilities (st : VoiceState) (roomId : String) : VoiceState × RouterModel :=
  getOrCreateRouter st roomId

/-- VoiceService.setUserTransport. -/
def setUserTransport (st : VoiceState) (roomId userId : String) (transport : TransportModel)
    (direction : Direction) : VoiceState × Except String Unit :=
  match mget st.voiceRooms roomId with
  | none => (st, Except.error "Voice room not found")
  | some voiceRoom =>
    match mget voiceRoom.users userId with
    | none => (st, Except.error "User not found")
    | some user =>
      let user' := match direction with
        | .send => { user with producerTransport := some transport }
        | .recv => { user with consumerTransport := some transport }
      ({ st with
         voiceRooms := mset st.voiceRooms roomId
           ({ voiceRoom with users := mset voiceRoom.users userId user' }) },
       Except.ok ())

/-- VoiceService.createWebRtcTransport: calls getOrCreateRouter first (creating
the voice room when absent), asks the engine for a transport, then stores it
via setUserTransport — which throws when the participant does not exist,
after the room and the engine transport have already been created. -/
def createWebRtcTransport (st : VoiceState) (roomId userId : String) (direction : Direction) :
    VoiceState × Except String TransportModel :=
  let stR := (getOrCreateRouter st roomId).1
  match mget stR.voiceRooms roomId with
  | none => (stR, Except.error "Voice room not found")
  | some _ =>
    let transport : TransportModel := { id := stR.nextId, connected := false }
    let stT : VoiceState := { stR with nextId := stR.nextId + 1 }
    match setUserTransport stT roomId userId transport direction with
    | (st', Except.ok _) => (st', Except.ok transport)
    | (st', Except.error e) => (st', Except.error e)

/-- VoiceService.connectWebRtcTransport: picks whichever of the participant's
two transports has the given id and finalizes its DTLS handshake. -/
def connectWebRtcTransport (st : VoiceState) (roomId userId : String) (transportId : Nat)
    (_dtlsParameters : Nat) : VoiceState × Except String Unit :=
  match mget st.voiceRooms roomId with
  | none => (st, Except.error "Voice room not found")
  | some voiceRoom =>
    match mget voiceRoom.users userId with
    | none => (st, Except.error "User not found")
    | some user =>
      if user.producerTransport.any (fun t => t.id == transportId) then
        let user' := { user with
          producerTransport := user.producerTransport.map (fun t => { t with connected := true }) }
        ({ st with
           voiceRooms := mset st.voiceRooms roomId
             ({ voiceRoom with users := mset voiceRoom.users userId user' }) },
         Except.ok ())
      else if user.consumerTransport.any (fun t => t.id == transportId) then
        let user' := { user with
          consumerTransport := user.consumerTransport.map (fun t => { t with connected := true }) }
        ({ st with
           voiceRooms := mset st.voiceRooms roomId
             ({ voiceRoom with users := mset voiceRoom.users userId user' }) },
         Except.ok ())
      else (st, Except.error "Transport not found")

/-- VoiceService.produce: requires the participant and their send transport
(the transportId argument is accepted but never compared) and stores a fresh
engine producer — created unpaused — as the participant's single producer. -/
def produce (st : VoiceState) (roomId userId : String) (_transportId : Nat) (_kind : MediaKind)
    (_rtpParameters : Nat) : VoiceState × Except String ProducerModel :=
  match mget st.voiceRooms roomId with
  | none => (st, Except.error "Voice room not found")
  | some voiceRoom =>
    match mget voiceRoom.users userId with
    | none => (st, Except.error "User or transport not found")
    | some user =>
      match user.producerTransport with
      | none => (st, Except.error "User or transport not found")
      | some _ =>
        let producer : ProducerModel := { id := st.nextId, paused := false }
        let user' := { user with producer := some producer }
        ({ st with
           nextId := st.nextId + 1,
           voiceRooms := mset st.voiceRooms roomId
             ({ voiceRoom with users := mset voiceRoom.users userId user' }) },
         Except.ok producer)

/-- VoiceService.consume. `cc` is the engine's `router.canConsume`, applied to
the room's router id, the producer id and the caller-supplied
rtpCapabilities (an opaque token). The consumer is requested with
`paused: true` and stored keyed by its own id. -/
def consume (cc : Nat → Nat → Nat → Bool) (st : VoiceState) (roomId userId : String)
    (producerId : Nat) (rtpCapabilities : Nat) : VoiceState × Except String ConsumerModel :=
  match mget st.voiceRooms roomId with
  | none => (st, Except.error "Voice room not found")
  | some voiceRoom =>
    if !cc voiceRoom.router.id producerId rtpCapabilities then
      (st, Except.error "Cannot consume")
    else
      match mget voiceRoom.users userId with
      | none => (st, Except.error "User or transport not found")
      | some user =>
        match user.consumerTransport with
        | none => (st, Except.error "User or transport not found")
        | some _ =>
          let consumer : ConsumerModel := { id := st.nextId, producerId := producerId, paused := true }
          let user' := { user with consumers := mset user.consumers consumer.id consumer }
          ({ st with
             nextId := st.nextId + 1,
             voiceRooms := mset st.voiceRooms roomId
               ({ voiceRoom with users := mset voiceRoom.users userId user' }) },
           Except.ok consumer)

/-- VoiceService.resumeConsumer. -/
def resumeConsumer (st : VoiceState) (roomId userId : String) (consumerId : Nat) :
    VoiceState × Except String Unit :=
  match mget st.voiceRooms roomId with
  | none => (st, Except.error "Voice room not found")
  | some voiceRoom =>
    match mget voiceRoom.users userId with
    | none => (st, Except.error "User not found")
    | some user =>
      match mget user.consumers consumerId with
      | none => (st, Except.error "Consumer not found")
      | some consumer =>
        let user' := { user with
          consumers := mset user.consumers consumerId ({ consumer with paused := false }) }
        ({ st with
           voiceRooms := mset st.voiceRooms roomId
             ({ voiceRoom with users := mset voiceRoom.users userId user' }) },
         Except.ok ())

/-- Roster entry returned by joinVoiceChannel / getVoiceUsers. -/
structure VoiceUserInfo where
  userId : String
  userName : String
  isMuted : Bool
  hasProducer : Bool
deriving DecidableEq, Repr

/-- The roster a VoiceRoom maps to. -/
def rosterOf (voiceRoom : VoiceRoom) : List VoiceUserInfo :=
  voiceRoom.users.map (fun p =>
    { userId := p.2.userId, userName := p.2.userName, isMuted := p.2.isMuted,
      hasProducer := p.2.producer.isSome })

/-- VoiceService.joinVoiceChannel: ensures the room (and router) exist, inserts
the participant when absent, returns the roster. -/
def joinVoiceChannel (st : VoiceState) (roomId userId userName : String) :
    VoiceState × Except String (List VoiceUserInfo) :=
  let stR := (getOrCreateRouter st roomId).1
  match mget stR.voiceRooms roomId with
  | none => (stR, Except.error "Voice room not found")
  | some voiceRoom =>
    let voiceRoom' :=
      if (mget voiceRoom.users userId).isSome then voiceRoom
      else { voiceRoom with
             users := mset voiceRoom.users userId
               ({ userId := userId, userName := userName, producerTransport := none,
                  consumerTransport := none, producer := none, consumers := [],
                  isMuted := false }) }
    ({ stR with voiceRooms := mset stR.voiceRooms roomId voiceRoom' },
     Except.ok (rosterOf voiceRoom'))

/-- VoiceService.leaveVoiceChannel: closes the participant's producer,
consumers and transports, removes the participant, and — whenever the room
ends up (or already was) empty — closes the router and deletes the room.
Silently a no-op when the room does not exist. -/
def leaveVoiceChannel (st : VoiceState) (roomId userId : String) : VoiceState :=
  match mget st.voiceRooms roomId with
  | none => st
  | some voiceRoom =>
    let closedUser := match mget voiceRoom.users userId with
      | none => ([] : List Nat)
      | some user =>
        (match user.producer with | some p => [p.id] | none => [])
          ++ user.consumers.map (fun q => q.2.id)
          ++ (match user.producerTransport with | some t => [t.id] | none => [])
          ++ (match user.consumerTransport with | some t => [t.id] | none => [])
    let voiceRoom' := match mget voiceRoom.users userId with
      | none => voiceRoom
      | some _ => { voiceRoom with users := mdel voiceRoom.users userId }
    let st' : VoiceState := { st with
      closedIds := st.closedIds ++ closedUser,
      voiceRooms := mset st.voiceRooms roomId voiceRoom' }
    if voiceRoom'.users.length == 0 then
      { st' with
        closedIds := st'.closedIds ++ [voiceRoom.router.id],
        voiceRooms := mdel st'.voiceRooms roomId }
    else st'

/-- VoiceService.toggleMute: stores the flag and pauses/resumes the producer
when one exists. -/
def toggleMute (st : VoiceState) (roomId userId : String) (isMuted : Bool) :
    VoiceState × Except String Bool :=
  match mget st.voiceRooms roomId with
  | none => (st, Except.error "Voice room not found")
  | some voiceRoom =>
    match mget voiceRoom.users userId with
    | none => (st, Except.error "User not found in voice room")
    | some user =>
      let user' := { user with
        isMuted := isMuted,
        producer := user.producer.map (fun p => { p with paused := isMuted }) }
      ({ st with
         voiceRooms := mset st.voiceRooms roomId
           ({ voiceRoom with users := mset voiceRoom.users userId user' }) },
       Except.ok isMuted)

/-- Entry of the producers_list payload. -/
structure ProducerInfo where
  userId : String
  userName : String
  producerId : Nat
deriving DecidableEq, Repr

/-- VoiceService.getProducersForUser: every other participant's producer,
excluding the caller's own entry. -/
def getProducersForUser (st : VoiceState) (roomId userId : String) : List ProducerInfo :=
  match mget st.voiceRooms roomId with
  | none => []
  | some voiceRoom =>
    voiceRoom.users.filterMap (fun p =>
      if p.1 ≠ userId then
        match p.2.producer with
        | some producer =>
          some { userId := p.1, userName := p.2.userName, producerId := producer.id }
        | none => none
      else none)

/-- VoiceService.getVoiceUsers. -/
def getVoiceUsers (st : VoiceState) (roomId : String) : List VoiceUserInfo :=
  match mget st.voiceRooms roomId with
  | none => []
  | some voiceRoom => rosterOf voiceRoom

/-- The participant record currently stored for a user, if any. -/
def voiceUserOf (st : VoiceState) (roomId userId : String) : Option VoiceUser :=
  (mget st.voiceRooms roomId).bind (fun voiceRoom => mget voiceRoom.users userId)

/-- The voice gateway's inbound event alphabet (voice.gateway.ts), as far as it
drives VoiceService state. -/
inductive VoiceEvent where
  | joinEv (roomId userId userName : String)
  | leaveEv (roomId userId : String)
  | muteEv (roomId userId : String) (isMuted : Bool)
  | rtpCapsEv (roomId : String)
  | createTransportEv (roomId userId : String) (direction : Direction)
  | connectTransportEv (roomId userId : String) (transportId dtls : Nat)
  | produceEv (roomId userId : String) (transportId : Nat) (kind : MediaKind) (rtp : Nat)
  | consumeEv (roomId userId : String) (producerId caps : Nat)
  | resumeEv (roomId userId : String) (consumerId : Nat)
deriving DecidableEq, Repr

/-- State component of dispatching one voice event (`cc` is the engine's
canConsume oracle). -/
def voiceStepState (cc : Nat → Nat → Nat → Bool) (st : VoiceState) : VoiceEvent → VoiceState
  | .joinEv r u n => (joinVoiceChannel st r u n).1
  | .leaveEv r u => leaveVoiceChannel st r u
  | .muteEv r u m => (toggleMute st r u m).1
  | .rtpCapsEv r => (getRouterRtpCapabilities st r).1
  | .createTransportEv r u d => (createWebRtcTransport st r u d).1
  | .connectTransportEv r u tid dtls => (connectWebRtcTransport st r u tid dtls).1
  | .produceEv r u tid k rtp => (produce st r u tid k rtp).1
  | .consumeEv r u pid caps => (consume cc st r u pid caps).1
  | .resumeEv r u cid => (resumeConsumer st r u cid).1

/-- Voice states reachable from process start. -/
inductive VoiceReachable (cc : Nat → Nat → Nat → Bool) : VoiceState → Prop where
  | init : VoiceReachable cc VoiceState.init
  | step (st : VoiceState) (e : VoiceEvent) :
      VoiceReachable cc st → VoiceReachable cc (voiceStepState cc st e)

/-- A canConsume oracle that accepts everything. -/
def ccTrue : Nat → Nat → Nat → Bool := fun _ _ _ => true

/-- A canConsume oracle that rejects everything. -/
def ccFalse : Nat → Nat → Nat → Bool := fun _ _ _ => false

/-- The participant record joinVoiceChannel inserts for a new user. -/
def freshVoiceUser (u n : String) : VoiceUser :=
  { userId := u, userName := n, producerTransport := none, consumerTransport := none,
    producer := none, consumers := [], isMuted := false }

/-- Voice room "r" freshly created (router only, zero participants), as left
behind by a get_router_rtp_capabilities for an absent room. -/
def v3Empty : VoiceState := (getRouterRtpCapabilities VoiceState.init "r").1

/-- Voice room "r" with the single participant "a". -/
def v3Joined : VoiceState := (joinVoiceChannel VoiceState.init "r" "a" "A").1

/-- The room record v3Joined stores under "r". -/
def v3JoinedRoom : VoiceRoom :=
  { roomId := "r", router := { id := 0 }, users := [("a", freshVoiceUser "a" "A")] }

/-- v3Joined after "a" created a send transport. -/
def c5Send : VoiceState := (createWebRtcTransport v3Joined "r" "a" Direction.send).1

/-- c5Send after toggleMute("r","a",true): "a" is muted but has no producer. -/
def c5Muted : VoiceState := (toggleMute c5Send "r" "a" true).1

/-- The participant record c5Send stores for "a". -/
def c5SendUser : VoiceUser :=
  { userId := "a", userName := "A", producerTransport := some { id := 1, connected := false },
    consumerTransport := none, producer := none, consumers := [], isMuted := false }

/-- The room record c5Send stores under "r". -/
def c5SendRoom : VoiceRoom :=
  { roomId := "r", router := { id := 0 }, users := [("a", c5SendUser)] }

/-- Voice room "r" with participant "b" holding a receive transport. -/
def c7Recv : VoiceState :=
  (createWebRtcTransport (joinVoiceChannel VoiceState.init "r" "b" "B").1 "r" "b"
    Direction.recv).1

/-- c5Send after "a" also created a receive transport. -/
def c9s3 : VoiceState := (createWebRtcTransport c5Send "r" "a" Direction.recv).1

/-- c9s3 after "a" produced: "a" holds producer 3 and both transports. -/
def c9s4 : VoiceState := (produce c9s3 "r" "a" 1 MediaKind.audio 0).1

/-- The participant record c9s4 stores for "a". -/
def c9User : VoiceUser :=
  { userId := "a", userName := "A", producerTransport := some { id := 1, connected := false },
    consumerTransport := some { id := 2, connected := false },
    producer := some { id := 3, paused := false }, consumers := [], isMuted := false }

/-- The room record c9s4 stores under "r". -/
def c9Room : VoiceRoom :=
  { roomId := "r", router := { id := 0 }, users := [("a", c9User)] }

/-- Observer: is the connection currently in the room's membership map? -/
def chatMember (s : ChatState) (r c : String) : Bool :=
  ((getRoom s r).bind (fun room => mget room.users c)).isSome

/-- Invariant behind claim C2: every private room's creator is on that room's
own allow-list. Established by handleCreateRoom (which grants the creator
access right after creating a private room) and preserved by every other
gateway handler. -/
def CreatorAllowed (s : ChatState) : Prop :=
  ∀ r room, mget s.rooms r = some room → room.isPrivate = true →
    room.allowedUsers.contains room.creatorId = true

/-- The room exists, is private, and has the connection on its allow-list. -/
def Allowed (s : ChatState) (r c : String) : Prop :=
  ∃ room, mget s.rooms r = some room ∧ room.isPrivate = true ∧
    room.allowedUsers.contains c = true

/-- Event filter for claim C6's permanence part: the event is not a
remove_room request for the given room (the only event able to delete it,
and with it the allow-list entry). -/
def AvoidsRemove (r : String) : ChatEvent → Prop
  | .removeRoomEv _ roomId => roomId ≠ r
  | _ => True

/-- Reachable state with one private room, used to instantiate claim C2. -/
def c2State : GatewayState :=
  chatStepState GatewayState.init (ChatEvent.createRoomEv "a" "r" true (some "x"))

/-- The room record c2State stores under the key "r". -/
def c2Room : Room :=
  { users := [], messages := [], isPrivate := true, password := some "x",
    allowedUsers := ["a"], creatorId := "a" }

/-- Claim C1's failing scenario: connection "a" attaches, creates the public
room "general" and joins it via join_room. -/
def c1State : GatewayState :=
  chatRun GatewayState.init
    [ChatEvent.connectEv "a",
     ChatEvent.createRoomEv "a" "general" false none,
     ChatEvent.joinRoomEv "a" "general" none]

/-- Claim C6's counterexample state: "a" creates the private room "secret"
with the empty string as its stored password. -/
def c6State : GatewayState :=
  chatStepState GatewayState.init (ChatEvent.createRoomEv "a" "secret" true (some ""))

/-- Claim C6's nominal scenario state: "a" creates the private room "secret"
with the nonempty password "x". -/
def c6GoodState : GatewayState :=
  chatStepState GatewayState.init (ChatEvent.createRoomEv "a" "secret" true (some "x"))

/-- The room record c6GoodState stores under the key "secret". -/
def c6GoodRoom : Room :=
  { users := [], messages := [], isPrivate := true, password := some "x",
    allowedUsers := ["a"], creatorId := "a" }

theorem mget_mset_self {κ α : Type} [DecidableEq κ] (m : List (κ × α)) (k : κ) (v : α) :
    mget (mset m k v) k = some v := by
  induction m with
  | nil => simp [mget, mset]
  | cons hd tl ih =>
    obtain ⟨k', v'⟩ := hd
    by_cases h : k' = k
    · subst h
      simp [mget, mset]
    · simp [mget, mset, h, ih]

theorem mget_mset_ne {κ α : Type} [DecidableEq κ] (m : List (κ × α)) (k k' : κ) (v : α)
    (h : k' ≠ k) : mget (mset m k v) k' = mget m k' := by
  induction m with
  | nil => simp [mget, mset, Ne.symm h]
  | cons hd tl ih =>
    obtain ⟨k₀, v₀⟩ := hd
    by_cases h₀ : k₀ = k
    · subst h₀
      simp [mget, mset, Ne.symm h]
    · by_cases h₁ : k₀ = k'
      · subst h₁
        simp [mget, mset, h₀]
      · simp [mget, mset, h₀, h₁, ih]

theorem mget_mdel_self {κ α : Type} [DecidableEq κ] (m : List (κ × α)) (k : κ) :
    mget (mdel m k) k = none := by
  induction m with
  | nil => simp [mget, mdel]
  | cons hd tl ih =>
    obtain ⟨k₀, v₀⟩ := hd
    by_cases h₀ : k₀ = k
    · subst h₀
      simpa [mdel] using ih
    · simpa [mget, mdel, h₀] using ih

theorem mget_mdel_ne {κ α : Type} [DecidableEq κ] (m : List (κ × α)) (k k' : κ)
    (h : k' ≠ k) : mget (mdel m k) k' = mget m k' := by
  induction m with
  | nil => simp [mget, mdel]
  | cons hd tl ih =>
    obtain ⟨k₀, v₀⟩ := hd
    by_cases h₀ : k₀ = k
    · subst h₀
      have : k₀ ≠ k' := fun hh => h hh.symm
      simpa [mget, mdel, this] using ih
    · by_cases h₁ : k₀ = k'
      · subst h₁
        simp [mget, mdel, h₀]
      · simpa [mget, mdel, h₀, h₁] using ih

theorem keys_ne_of_mget_none {κ α : Type} [DecidableEq κ] (m : List (κ × α)) (k : κ)
    (h : mget m k = none) : ∀ p ∈ m, p.1 ≠ k := by
  induction m with
  | nil => intro p hp; cases hp
  | cons hd tl ih =>
    obtain ⟨k₀, v₀⟩ := hd
    intro p hp
    by_cases h₀ : k₀ = k
    · subst h₀
      simp [mget] at h
    · rcases List.mem_cons.mp hp with hp | hp
      · subst hp; exact h₀
      · exact ih (by simpa [mget, h₀] using h) p hp

theorem mset_eq_append_of_none {κ α : Type} [DecidableEq κ] (m : List (κ × α)) (k : κ) (v : α)
    (h : mget m k = none) : mset m k v = m ++ [(k, v)] := by
  induction m with
  | nil => simp [mset]
  | cons hd tl ih =>
    obtain ⟨k₀, v₀⟩ := hd
    by_cases h₀ : k₀ = k
    · subst h₀
      simp [mget] at h
    · simp [mset, h₀, ih (by simpa [mget, h₀] using h)]

theorem mset_mset_same {κ α : Type} [DecidableEq κ] (m : List (κ × α)) (k : κ) (a b : α) :
    mset (mset m k a) k b = mset m k b := by
  induction m with
  | nil => simp [mset]
  | cons hd tl ih =>
    obtain ⟨k₀, v₀⟩ := hd
    by_cases h₀ : k₀ = k
    · subst h₀
      simp [mset]
    · simp [mset, h₀, ih]

theorem contains_sadd_self (s : List String) (x : String) :
    (sadd s x).contains x = true := by
  by_cases h : x ∈ s
  · simp [sadd, h]
  · simp [sadd, h]

theorem contains_sadd_of (s : List String) (x y : String)
    (h : s.contains y = true) : (sadd s x).contains y = true := by
  have hy : y ∈ s := by simpa using h
  by_cases hx : x ∈ s
  · simp [sadd, hx, hy]
  · simp [sadd, hx, hy]

theorem creatorAllowed_mset (s : ChatState) (roomId : String) (newRoom : Room)
    (hnew : newRoom.isPrivate = true → newRoom.allowedUsers.contains newRoom.creatorId = true)
    (hs : CreatorAllowed s) :
    CreatorAllowed { s with rooms := mset s.rooms roomId newRoom } := by
  intro r room hm hp
  by_cases hr : r = roomId
  · subst hr
    rw [show ({ s with rooms := mset s.rooms r newRoom } : ChatState).rooms
          = mset s.rooms r newRoom from rfl, mget_mset_self] at hm
    cases hm
    exact hnew hp
  · rw [show ({ s with rooms := mset s.rooms roomId newRoom } : ChatState).rooms
          = mset s.rooms roomId newRoom from rfl, mget_mset_ne _ _ _ _ hr] at hm
    exact hs r room hm hp

theorem creatorAllowed_addUserToRoom (s : ChatState) (roomId userId : String)
    (hs : CreatorAllowed s) : CreatorAllowed (addUserToRoom s roomId userId) := by
  cases hm : mget s.rooms roomId with
  | none => simpa [addUserToRoom, hm] using hs
  | some room =>
    simp only [addUserToRoom, hm]
    exact creatorAllowed_mset s roomId _ (fun hp => hs roomId room hm hp) hs

theorem creatorAllowed_removeUserFromRoom (s : ChatState) (roomId userId : String)
    (hs : CreatorAllowed s) : CreatorAllowed (removeUserFromRoom s roomId userId) := by
  cases hm : mget s.rooms roomId with
  | none => simpa [removeUserFromRoom, hm] using hs
  | some room =>
    simp only [removeUserFromRoom, hm]
    exact creatorAllowed_mset s roomId _ (fun hp => hs roomId room hm hp) hs

theorem creatorAllowed_addMessage (s : ChatState) (roomId : String) (msg : Message)
    (hs : CreatorAllowed s) : CreatorAllowed (addMessage s roomId msg) := by
  cases hm : mget s.rooms roomId with
  | none => simpa [addMessage, hm] using hs
  | some room =>
    simp only [addMessage, hm]
    exact creatorAllowed_mset s roomId _ (fun hp => hs roomId room hm hp) hs

theorem creatorAllowed_removeRoom (s : ChatState) (roomId : String)
    (hs : CreatorAllowed s) : CreatorAllowed (removeRoom s roomId) := by
  intro r room hm hp
  by_cases hr : r = roomId
  · subst hr
    rw [show (removeRoom s r).rooms = mdel s.rooms r from rfl, mget_mdel_self] at hm
    cases hm
  · rw [show (removeRoom s roomId).rooms = mdel s.rooms roomId from rfl,
        mget_mdel_ne _ _ _ hr] at hm
    exact hs r room hm hp

theorem creatorAllowed_setUserName (s : ChatState) (userId userName : String)
    (hs : CreatorAllowed s) : CreatorAllowed (setUserName s userId userName) := hs

theorem creatorAllowed_addUserToPrivateRoom (s : ChatState) (roomId userId : String)
    (hs : CreatorAllowed s) : CreatorAllowed (addUserToPrivateRoom s roomId userId).1 := by
  cases hm : mget s.rooms roomId with
  | none => simpa [addUserToPrivateRoom, hm] using hs
  | some room =>
    by_cases hp : room.isPrivate
    · simp only [addUserToPrivateRoom, hm, hp, if_pos]
      exact creatorAllowed_mset s roomId _
        (fun hpp => contains_sadd_of _ _ _ (hs roomId room hm hp)) hs
    · simpa [addUserToPrivateRoom, hm, hp] using hs

theorem creatorAllowed_handleCreateRoom (g : GatewayState) (c roomName : String)
    (isPrivate : Bool) (password : Option String) (hs : CreatorAllowed g.svc) :
    CreatorAllowed (handleCreateRoom g c roomName isPrivate password).1.svc := by
  cases isPrivate with
  | false =>
    cases hm : mget g.svc.rooms roomName with
    | none =>
      simp only [handleCreateRoom, createRoom, hm, Bool.false_eq_true, if_false]
      exact creatorAllowed_mset g.svc roomName _ (by intro hp; simp at hp) hs
    | some room => simpa [handleCreateRoom, createRoom, hm] using hs
  | true =>
    cases hm : mget g.svc.rooms roomName with
    | none =>
      simp only [handleCreateRoom, createRoom, hm, if_true]
      have h1 : mget (mset g.svc.rooms roomName
          ({ users := [], messages := [], isPrivate := true, password := password,
             allowedUsers := [], creatorId := c } : Room)) roomName = some
          ({ users := [], messages := [], isPrivate := true, password := password,
             allowedUsers := [], creatorId := c } : Room) := mget_mset_self _ _ _
      simp only [addUserToPrivateRoom, h1, if_pos, mset_mset_same]
      exact creatorAllowed_mset g.svc roomName
        ({ users := [], messages := [], isPrivate := true, password := password,
           allowedUsers := sadd [] c, creatorId := c } : Room)
        (fun _ => by simp [sadd]) hs
    | some room =>
      simp only [handleCreateRoom, createRoom, hm, if_true]
      exact creatorAllowed_addUserToPrivateRoom _ roomName c hs

theorem creatorAllowed_handleJoinRoom (g : GatewayState) (c roomId : String)
    (password : Option String) (hs : CreatorAllowed g.svc) :
    CreatorAllowed (handleJoinRoom g c roomId password).1.svc := by
  cases hm : getRoom g.svc roomId with
  | none => simpa [handleJoinRoom, hm] using hs
  | some room =>
    by_cases hgate : room.isPrivate && !canAccessRoom g.svc roomId c
    · cases hpw : (match password with
        | some p => p != "" && verifyRoomPassword g.svc roomId p
        | none => false) with
      | true =>
        simp only [handleJoinRoom, hm, hgate, if_true, hpw, joinRoomFinish]
        exact creatorAllowed_addUserToRoom _ roomId c
          (creatorAllowed_addUserToPrivateRoom _ roomId c hs)
      | false =>
        simpa [handleJoinRoom, hm, hgate, hpw] using hs
    · simp only [handleJoinRoom, hm, hgate, if_false, joinRoomFinish]
      exact creatorAllowed_addUserToRoom _ roomId c hs

theorem creatorAllowed_step (g : GatewayState) (e : ChatEvent)
    (hs : CreatorAllowed g.svc) : CreatorAllowed (chatStepState g e).svc := by
  cases e with
  | connectEv c => exact hs
  | disconnectEv c =>
    cases hm : mget g.userRooms c with
    | none => simpa [chatStepState, chatStep, handleDisconnect, hm] using hs
    | some currentRoom =>
      simp only [chatStepState, chatStep, handleDisconnect, hm]
      exact creatorAllowed_removeUserFromRoom _ currentRoom c hs
  | setNameEv c n =>
    cases hm : mget g.userRooms c with
    | none => simpa [chatStepState, chatStep, handleSetUserName, hm] using hs
    | some currentRoom => simpa [chatStepState, chatStep, handleSetUserName, hm] using hs
  | createRoomEv c n priv pw => exact creatorAllowed_handleCreateRoom g c n priv pw hs
  | getRoomsEv c => exact hs
  | joinRoomEv c r pw => exact creatorAllowed_handleJoinRoom g c r pw hs
  | leaveRoomEv c r => exact creatorAllowed_removeUserFromRoom _ r c hs
  | sendMessageEv c r m ts => exact creatorAllowed_addMessage _ r _ hs
  | addPrivateEv c r u =>
    cases hm : getRoom g.svc r with
    | none => simpa [chatStepState, chatStep, handleAddUserToPrivateRoom, hm] using hs
    | some room =>
      by_cases hp : room.isPrivate
      · simp only [chatStepState, chatStep, handleAddUserToPrivateRoom, hm, hp, if_pos]
        exact creatorAllowed_addUserToPrivateRoom _ r u hs
      · simpa [chatStepState, chatStep, handleAddUserToPrivateRoom, hm, hp] using hs
  | removeRoomEv c r =>
    by_cases hcr : isRoomCreator g.svc r c
    · simp only [chatStepState, chatStep, handleRemoveRoom, hcr, if_pos]
      exact creatorAllowed_removeRoom _ r hs
    · simpa [chatStepState, chatStep, handleRemoveRoom, hcr] using hs
  | removeUserEv c r u =>
    by_cases hcr : isRoomCreator g.svc r c
    · by_cases hcn : (({ g with svc := removeUserFromRoom g.svc r u } : GatewayState)).connected.contains u
      · simp only [chatStepState, chatStep, handleRemoveUserFromRoom, hcr, if_pos, hcn]
        exact creatorAllowed_removeUserFromRoom _ r u hs
      · simp only [chatStepState, chatStep, handleRemoveUserFromRoom, hcr, if_pos]
        simp only [hcn, Bool.false_eq_true, if_false]
        exact creatorAllowed_removeUserFromRoom _ r u hs
    · simpa [chatStepState, chatStep, handleRemoveUserFromRoom, hcr] using hs

theorem reachable_creatorAllowed (g : GatewayState) (h : ChatReachable g) :
    CreatorAllowed g.svc := by
  induction h with
  | init => intro r room hm hp; simp [GatewayState.init, ChatState.init, mget] at hm
  | step g' e _ ih => exact creatorAllowed_step g' e ih

/-- Claim C2: in every reachable gateway state, for every existing private room
and every connection id, canAccessRoom returns true iff the room's allow-list
contains the connection id or the room's stored creator id equals it. (The
code only tests the allow-list; the creator disjunct holds because
handleCreateRoom puts the creator of every private room on its allow-list,
and allow-lists only ever grow.) -/
theorem claim_C2_canAccess_iff (g : GatewayState) (hreach : ChatReachable g)
    (r : String) (room : Room) (c : String)
    (hget : getRoom g.svc r = some room) (hpriv : room.isPrivate = true) :
    canAccessRoom g.svc r c = true ↔
      (room.allowedUsers.contains c = true ∨ room.creatorId = c) := by
  have hinv := reachable_creatorAllowed g hreach
  have hm : mget g.svc.rooms r = some room := hget
  have hacc : canAccessRoom g.svc r c = room.allowedUsers.contains c := by
    simp [canAccessRoom, hm, hpriv]
  constructor
  · intro h
    exact Or.inl (hacc ▸ h)
  · intro h
    rcases h with h | h
    · rw [hacc]; exact h
    · rw [hacc, ← h]; exact hinv r room hm hpriv

/-- Concrete instance of claim C2's statement: one createRoom event from the
initial state yields a private room on which the equivalence evaluates. -/
theorem claim_C2_canAccess_iff_witness :
    getRoom c2State.svc "r" = some c2Room ∧ c2Room.isPrivate = true ∧
      (canAccessRoom c2State.svc "r" "a" = true ↔
        (c2Room.allowedUsers.contains "a" = true ∨ c2Room.creatorId = "a")) :=
  ⟨by decide, rfl,
   claim_C2_canAccess_iff c2State
     (ChatReachable.step GatewayState.init (ChatEvent.createRoomEv "a" "r" true (some "x"))
       ChatReachable.init)
     "r" c2Room "a" (by decide) rfl⟩

/-- Claim C8: createRoom is idempotent — when the name is new, a second
createRoom with the same name and arbitrary other arguments returns the
state of the first call unchanged, the registry holds exactly one room under
that name, and that room carries the first call's creator, visibility and
password with empty messages and membership. -/
theorem createRoom_exists_noop (s : ChatState) (n c : String) (p : Bool) (pw : Option String)
    (room : Room) (h : mget s.rooms n = some room) : createRoom s n c p pw = s := by
  simp [createRoom, h]

theorem claim_C8_createRoom_idempotent (s : ChatState) (n c₁ c₂ : String)
    (p₁ p₂ : Bool) (pw₁ pw₂ : Option String) (h : mget s.rooms n = none) :
    createRoom (createRoom s n c₁ p₁ pw₁) n c₂ p₂ pw₂ = createRoom s n c₁ p₁ pw₁ ∧
    mget (createRoom s n c₁ p₁ pw₁).rooms n = some
      ({ users := [], messages := [], isPrivate := p₁, password := pw₁,
         allowedUsers := [], creatorId := c₁ } : Room) ∧
    ((createRoom s n c₁ p₁ pw₁).rooms.filter (fun q => decide (q.1 = n))).length = 1 := by
  have h1 : mget (createRoom s n c₁ p₁ pw₁).rooms n = some
      ({ users := [], messages := [], isPrivate := p₁, password := pw₁,
         allowedUsers := [], creatorId := c₁ } : Room) := by
    simp [createRoom, h, mget_mset_self]
  refine ⟨createRoom_exists_noop _ n c₂ p₂ pw₂ _ h1, h1, ?_⟩
  · have hyes : (createRoom s n c₁ p₁ pw₁).rooms = s.rooms ++
        [(n, ({ users := [], messages := [], isPrivate := p₁, password := pw₁,
                allowedUsers := [], creatorId := c₁ } : Room))] := by
      simp [createRoom, h, mset_eq_append_of_none _ _ _ h]
    rw [hyes, List.filter_append]
    have hnil : s.rooms.filter (fun q => decide (q.1 = n)) = [] := by
      rw [List.filter_eq_nil_iff]
      intro p hp
      simpa using keys_ne_of_mget_none s.rooms n h p hp
    simp [hnil]

/-- Concrete instance of claim C8's statement at the empty registry. -/
theorem claim_C8_createRoom_idempotent_witness :
    mget (ChatState.init).rooms "r" = none ∧
    (createRoom (createRoom ChatState.init "r" "a" true (some "x")) "r" "b" false none
        = createRoom ChatState.init "r" "a" true (some "x") ∧
      mget (createRoom ChatState.init "r" "a" true (some "x")).rooms "r" = some
        ({ users := [], messages := [], isPrivate := true, password := some "x",
           allowedUsers := [], creatorId := "a" } : Room) ∧
      ((createRoom ChatState.init "r" "a" true (some "x")).rooms.filter
          (fun q => decide (q.1 = "r"))).length = 1) :=
  ⟨rfl, claim_C8_createRoom_idempotent ChatState.init "r" "a" "b" true false
    (some "x") none rfl⟩

/-- Claim C10: after setUserName with the empty string, getUserName resolves to
the deterministic fallback built from the first 6 characters of the
connection id, not to the empty string. -/
theorem claim_C10_empty_name_falls_back (s : ChatState) (c : String) :
    getUserName (setUserName s c "") c = "User " ++ c.take 6 ∧
    getUserName (setUserName s c "") c ≠ "" := by
  have h : mget (setUserName s c "").userNames c = some "" := by
    simp [setUserName, mget_mset_self]
  have h1 : getUserName (setUserName s c "") c = "User " ++ c.take 6 := by
    simp [getUserName, h]
  refine ⟨h1, ?_⟩
  rw [h1]
  intro hcontra
  have hlen := congrArg String.length hcontra
  simp [String.length_append] at hlen
  exact absurd hlen.1 (by decide)

theorem handleJoinRoom_userRooms (g : GatewayState) (c roomId : String)
    (password : Option String) :
    (handleJoinRoom g c roomId password).1.userRooms = g.userRooms := by
  cases hm : getRoom g.svc roomId with
  | none => simp [handleJoinRoom, hm]
  | some room =>
    by_cases hgate : room.isPrivate && !canAccessRoom g.svc roomId c
    · cases hpw : (match password with
        | some p => p != "" && verifyRoomPassword g.svc roomId p
        | none => false) with
      | true => simp [handleJoinRoom, hm, hgate, hpw, joinRoomFinish]
      | false => simp [handleJoinRoom, hm, hgate, hpw]
    · simp [handleJoinRoom, hm, hgate, joinRoomFinish]

/-- The gateway never writes to `userRooms`: no handler (in particular not
handleJoinRoom) ever inserts into it, so it stays empty forever. -/
theorem reachable_userRooms_nil (g : GatewayState) (h : ChatReachable g) :
    g.userRooms = [] := by
  induction h with
  | init => rfl
  | step g' e _ ih =>
    cases e with
    | connectEv c => simpa [chatStepState, chatStep, handleConnection] using ih
    | disconnectEv c =>
      simp only [chatStepState, chatStep, handleDisconnect, ih, mget]
    | setNameEv c n =>
      cases hm : mget g'.userRooms c with
      | none => simpa [chatStepState, chatStep, handleSetUserName, hm] using ih
      | some cr => simpa [chatStepState, chatStep, handleSetUserName, hm] using ih
    | createRoomEv c n priv pw =>
      simpa [chatStepState, chatStep, handleCreateRoom] using ih
    | getRoomsEv c => simpa [chatStepState, chatStep, handleGetRooms] using ih
    | joinRoomEv c r pw =>
      rw [show (chatStepState g' (ChatEvent.joinRoomEv c r pw)).userRooms
            = (handleJoinRoom g' c r pw).1.userRooms from rfl,
          handleJoinRoom_userRooms]
      exact ih
    | leaveRoomEv c r =>
      simp [chatStepState, chatStep, handleLeaveRoom, ih, mdel]
    | sendMessageEv c r m ts =>
      simpa [chatStepState, chatStep, handleSendMessage] using ih
    | addPrivateEv c r u =>
      cases hm : getRoom g'.svc r with
      | none => simpa [chatStepState, chatStep, handleAddUserToPrivateRoom, hm] using ih
      | some room =>
        by_cases hp : room.isPrivate
        · simpa [chatStepState, chatStep, handleAddUserToPrivateRoom, hm, hp] using ih
        · simpa [chatStepState, chatStep, handleAddUserToPrivateRoom, hm, hp] using ih
    | removeRoomEv c r =>
      by_cases hcr : isRoomCreator g'.svc r c
      · simpa [chatStepState, chatStep, handleRemoveRoom, hcr] using ih
      · simpa [chatStepState, chatStep, handleRemoveRoom, hcr] using ih
    | removeUserEv c r u =>
      by_cases hcr : isRoomCreator g'.svc r c
      · simp only [chatStepState, chatStep, handleRemoveUserFromRoom, hcr, if_true]
        split <;> simpa using ih
      · simpa [chatStepState, chatStep, handleRemoveUserFromRoom, hcr] using ih

/-- Claim C1 (refuted by the code, a bug): in every reachable state the
disconnect handler is a no-op on chat state — it emits nothing and removes
nobody from any room — because handleJoinRoom never records the joined room
in `userRooms`, the map handleDisconnect consults. -/
theorem claim_C1_disconnect_is_noop (g : GatewayState) (c : String)
    (h : ChatReachable g) :
    (handleDisconnect g c).2 = [] ∧ (handleDisconnect g c).1.svc = g.svc := by
  have hu : g.userRooms = [] := reachable_userRooms_nil g h
  constructor
  · simp [handleDisconnect, hu, mget]
  · simp [handleDisconnect, hu, mget]

/-- Concrete run of claim C1's failing input: after "a" creates and joins the
public room "general", its disconnect emits no roster broadcast and leaves
"a" in the room's membership map. -/
theorem claim_C1_disconnect_is_noop_witness :
    chatMember c1State.svc "general" "a" = true ∧
    (handleDisconnect c1State "a").2 = [] ∧
    chatMember (handleDisconnect c1State "a").1.svc "general" "a" = true := by
  have hre : ChatReachable c1State :=
    ChatReachable.step _ (ChatEvent.joinRoomEv "a" "general" none)
      (ChatReachable.step _ (ChatEvent.createRoomEv "a" "general" false none)
        (ChatReachable.step _ (ChatEvent.connectEv "a") ChatReachable.init))
  have hmain := claim_C1_disconnect_is_noop c1State "a" hre
  refine ⟨by decide, hmain.1, ?_⟩
  rw [hmain.2]
  decide

theorem allowed_mset_other (s : ChatState) (x : String) (newRoom : Room) (r c : String)
    (hx : x ≠ r) (h : Allowed s r c) :
    Allowed { s with rooms := mset s.rooms x newRoom } r c := by
  obtain ⟨room, hm, hp, hc⟩ := h
  refine ⟨room, ?_, hp, hc⟩
  rw [show ({ s with rooms := mset s.rooms x newRoom } : ChatState).rooms
        = mset s.rooms x newRoom from rfl, mget_mset_ne _ _ _ _ (Ne.symm hx)]
  exact hm

theorem allowed_mset_keep (s : ChatState) (newRoom : Room) (r c : String)
    (hp : newRoom.isPrivate = true) (hc : newRoom.allowedUsers.contains c = true) :
    Allowed { s with rooms := mset s.rooms r newRoom } r c := by
  refine ⟨newRoom, ?_, hp, hc⟩
  rw [show ({ s with rooms := mset s.rooms r newRoom } : ChatState).rooms
        = mset s.rooms r newRoom from rfl]
  exact mget_mset_self _ _ _

theorem allowed_addUserToRoom (s : ChatState) (x y r c : String)
    (h : Allowed s r c) : Allowed (addUserToRoom s x y) r c := by
  obtain ⟨room, hm, hp, hc⟩ := h
  cases hm2 : mget s.rooms x with
  | none => simpa [addUserToRoom, hm2] using ⟨room, hm, hp, hc⟩
  | some room2 =>
    simp only [addUserToRoom, hm2]
    by_cases hx : x = r
    · subst hx
      rw [hm] at hm2
      cases hm2
      exact allowed_mset_keep s _ x c hp hc
    · exact allowed_mset_other s x _ r c hx ⟨room, hm, hp, hc⟩

theorem allowed_removeUserFromRoom (s : ChatState) (x y r c : String)
    (h : Allowed s r c) : Allowed (removeUserFromRoom s x y) r c := by
  obtain ⟨room, hm, hp, hc⟩ := h
  cases hm2 : mget s.rooms x with
  | none => simpa [removeUserFromRoom, hm2] using ⟨room, hm, hp, hc⟩
  | some room2 =>
    simp only [removeUserFromRoom, hm2]
    by_cases hx : x = r
    · subst hx
      rw [hm] at hm2
      cases hm2
      exact allowed_mset_keep s _ x c hp hc
    · exact allowed_mset_other s x _ r c hx ⟨room, hm, hp, hc⟩

theorem allowed_addMessage (s : ChatState) (x : String) (msg : Message) (r c : String)
    (h : Allowed s r c) : Allowed (addMessage s x msg) r c := by
  obtain ⟨room, hm, hp, hc⟩ := h
  cases hm2 : mget s.rooms x with
  | none => simpa [addMessage, hm2] using ⟨room, hm, hp, hc⟩
  | some room2 =>
    simp only [addMessage, hm2]
    by_cases hx : x = r
    · subst hx
      rw [hm] at hm2
      cases hm2
      exact allowed_mset_keep s _ x c hp hc
    · exact allowed_mset_other s x _ r c hx ⟨room, hm, hp, hc⟩

theorem allowed_addUserToPrivateRoom (s : ChatState) (x y r c : String)
    (h : Allowed s r c) : Allowed (addUserToPrivateRoom s x y).1 r c := by
  obtain ⟨room, hm, hp, hc⟩ := h
  cases hm2 : mget s.rooms x with
  | none => simpa [addUserToPrivateRoom, hm2] using ⟨room, hm, hp, hc⟩
  | some room2 =>
    by_cases hp2 : room2.isPrivate
    · simp only [addUserToPrivateRoom, hm2, hp2, if_pos]
      by_cases hx : x = r
      · subst hx
        rw [hm] at hm2
        cases hm2
        exact allowed_mset_keep s _ x c rfl (contains_sadd_of _ _ _ hc)
      · exact allowed_mset_other s x _ r c hx ⟨room, hm, hp, hc⟩
    · simpa [addUserToPrivateRoom, hm2, hp2] using ⟨room, hm, hp, hc⟩

theorem allowed_createRoom (s : ChatState) (x y : String) (priv : Bool)
    (pw : Option String) (r c : String) (h : Allowed s r c) :
    Allowed (createRoom s x y priv pw) r c := by
  obtain ⟨room, hm, hp, hc⟩ := h
  cases hm2 : mget s.rooms x with
  | some room2 => simpa [createRoom, hm2] using ⟨room, hm, hp, hc⟩
  | none =>
    simp only [createRoom, hm2]
    by_cases hx : x = r
    · subst hx
      rw [hm] at hm2
      cases hm2
    · exact allowed_mset_other s x _ r c hx ⟨room, hm, hp, hc⟩

theorem allowed_removeRoom_other (s : ChatState) (x r c : String) (hx : x ≠ r)
    (h : Allowed s r c) : Allowed (removeRoom s x) r c := by
  obtain ⟨room, hm, hp, hc⟩ := h
  refine ⟨room, ?_, hp, hc⟩
  rw [show (removeRoom s x).rooms = mdel s.rooms x from rfl,
      mget_mdel_ne _ _ _ (Ne.symm hx)]
  exact hm

/-- One gateway step that is not a remove_room for room r preserves r's
existence, privacy and the allow-list entry of c. -/
theorem allowed_step (g : GatewayState) (e : ChatEvent) (r c : String)
    (h : Allowed g.svc r c) (he : AvoidsRemove r e) :
    Allowed (chatStepState g e).svc r c := by
  cases e with
  | connectEv c' => exact h
  | disconnectEv c' =>
    cases hm : mget g.userRooms c' with
    | none => simpa [chatStepState, chatStep, handleDisconnect, hm] using h
    | some currentRoom =>
      simp only [chatStepState, chatStep, handleDisconnect, hm]
      exact allowed_removeUserFromRoom _ currentRoom c' r c h
  | setNameEv c' n =>
    cases hm : mget g.userRooms c' with
    | none => simpa [chatStepState, chatStep, handleSetUserName, hm, setUserName] using h
    | some cr => simpa [chatStepState, chatStep, handleSetUserName, hm, setUserName] using h
  | createRoomEv c' n priv pw =>
    cases priv with
    | false =>
      simp only [chatStepState, chatStep, handleCreateRoom, Bool.false_eq_true, if_false]
      exact allowed_createRoom _ n c' false pw r c h
    | true =>
      simp only [chatStepState, chatStep, handleCreateRoom, if_true]
      exact allowed_addUserToPrivateRoom _ n c' r c (allowed_createRoom _ n c' true pw r c h)
  | getRoomsEv c' => exact h
  | joinRoomEv c' r' pw =>
    cases hm : getRoom g.svc r' with
    | none => simpa [chatStepState, chatStep, handleJoinRoom, hm] using h
    | some room =>
      by_cases hgate : room.isPrivate && !canAccessRoom g.svc r' c'
      · cases pw with
        | none => simpa [chatStepState, chatStep, handleJoinRoom, hm, hgate] using h
        | some p =>
          by_cases hpw : (p != "" && verifyRoomPassword g.svc r' p)
          · simp only [chatStepState, chatStep, handleJoinRoom, hm, hgate, if_true, hpw,
              joinRoomFinish]
            exact allowed_addUserToRoom _ r' c' r c (allowed_addUserToPrivateRoom _ r' c' r c h)
          · simpa [chatStepState, chatStep, handleJoinRoom, hm, hgate, hpw] using h
      · simp only [chatStepState, chatStep, handleJoinRoom, hm, hgate, if_false, joinRoomFinish]
        exact allowed_addUserToRoom _ r' c' r c h
  | leaveRoomEv c' r' =>
    exact allowed_removeUserFromRoom _ r' c' r c h
  | sendMessageEv c' r' m ts =>
    exact allowed_addMessage _ r' _ r c h
  | addPrivateEv c' r' u =>
    cases hm : getRoom g.svc r' with
    | none => simpa [chatStepState, chatStep, handleAddUserToPrivateRoom, hm] using h
    | some room =>
      by_cases hp : room.isPrivate
      · simp only [chatStepState, chatStep, handleAddUserToPrivateRoom, hm, hp, if_pos]
        exact allowed_addUserToPrivateRoom _ r' u r c h
      · simpa [chatStepState, chatStep, handleAddUserToPrivateRoom, hm, hp] using h
  | removeRoomEv c' r' =>
    by_cases hcr : isRoomCreator g.svc r' c'
    · simp only [chatStepState, chatStep, handleRemoveRoom, hcr, if_true]
      exact allowed_removeRoom_other _ r' r c he h
    · simpa [chatStepState, chatStep, handleRemoveRoom, hcr] using h
  | removeUserEv c' r' u =>
    by_cases hcr : isRoomCreator g.svc r' c'
    · simp only [chatStepState, chatStep, handleRemoveUserFromRoom, hcr, if_true]
      split
      · exact allowed_removeUserFromRoom _ r' u r c h
      · exact allowed_removeUserFromRoom _ r' u r c h
    · simpa [chatStepState, chatStep, handleRemoveUserFromRoom, hcr] using h

/-- The allow-list entry survives any event trace that never removes room r. -/
theorem allowed_run (es : List ChatEvent) (g : GatewayState) (r c : String)
    (h : Allowed g.svc r c) (he : ∀ e ∈ es, AvoidsRemove r e) :
    Allowed (chatRun g es).svc r c := by
  induction es generalizing g with
  | nil => exact h
  | cons e es ih =>
    exact ih (chatStepState g e)
      (allowed_step g e r c h (he e (List.mem_cons_self e es)))
      (fun e' he' => he e' (List.mem_cons_of_mem e he'))

/-- An allow-listed connection joins a private room without any password:
success emission and membership. -/
theorem join_when_allowed (g : GatewayState) (r c : String) (pw : Option String)
    (h : Allowed g.svc r c) :
    (handleJoinRoom g c r pw).2 = [Emission.toGroup r "room_users"] ∧
    chatMember (handleJoinRoom g c r pw).1.svc r c = true := by
  obtain ⟨room, hm, hp, hc⟩ := h
  have hmem : c ∈ room.allowedUsers := by simpa using hc
  have hacc : canAccessRoom g.svc r c = true := by
    simp [canAccessRoom, hm, hp, hmem]
  have hgate : (room.isPrivate && !canAccessRoom g.svc r c) = false := by
    simp [hacc]
  have hjoin : handleJoinRoom g c r pw = joinRoomFinish g c r := by
    simp [handleJoinRoom, getRoom, hm, hgate]
  rw [hjoin]
  constructor
  · rfl
  · simp [joinRoomFinish, chatMember, getRoom, addUserToRoom, hm, mget_mset_self]

theorem chatMember_addUserToRoom (s : ChatState) (r c : String) (room : Room)
    (hm : mget s.rooms r = some room) : chatMember (addUserToRoom s r c) r c = true := by
  simp [chatMember, getRoom, addUserToRoom, hm, mget_mset_self]

/-- Claim C6 (amended): for a private room whose stored password is a NONEMPTY
string and a connection without access, join_room with any candidate other
than the exact stored password (wrong, empty, or absent) fails with
Unauthorized and leaves the whole gateway state unchanged; join_room with
the exact stored password succeeds, broadcasts the roster, makes the
connection a member, and puts it on the allow-list; and after any further
event trace that contains no remove_room for this room, a join_room without
any password still succeeds with membership. (Amended from the claim: the
stored password must be nonempty — the source guard `password && verify`
treats an empty candidate as absent, so an empty stored password can never
be matched — and permanence is relative to the room not being removed.) -/
theorem claim_C6_password_join (g : GatewayState) (r c p : String) (room : Room)
    (hget : getRoom g.svc r = some room) (hpriv : room.isPrivate = true)
    (hpw : room.password = some p) (hne : p ≠ "")
    (hnoacc : canAccessRoom g.svc r c = false) :
    (∀ cand : Option String, cand ≠ some p →
        handleJoinRoom g c r cand = (g, [Emission.toClient c "error" "Unauthorized"])) ∧
    ((handleJoinRoom g c r (some p)).2 = [Emission.toGroup r "room_users"] ∧
      chatMember (handleJoinRoom g c r (some p)).1.svc r c = true ∧
      Allowed (handleJoinRoom g c r (some p)).1.svc r c) ∧
    (∀ es : List ChatEvent, (∀ e ∈ es, AvoidsRemove r e) →
        (handleJoinRoom (chatRun (handleJoinRoom g c r (some p)).1 es) c r none).2
            = [Emission.toGroup r "room_users"] ∧
        chatMember
          (handleJoinRoom (chatRun (handleJoinRoom g c r (some p)).1 es) c r none).1.svc
          r c = true) := by
  have hm : mget g.svc.rooms r = some room := hget
  have hgate : (room.isPrivate && !canAccessRoom g.svc r c) = true := by
    simp [hpriv, hnoacc]
  have hv : verifyRoomPassword g.svc r p = true := by
    simp [verifyRoomPassword, hm, hpriv, hpw]
  have hpne : (p != "") = true := by simpa using hne
  have hs₁ : (addUserToPrivateRoom g.svc r c).1
      = { g.svc with
          rooms := mset g.svc.rooms r
            ({ room with allowedUsers := sadd room.allowedUsers c }) } := by
    simp [addUserToPrivateRoom, hm, hpriv]
  have hall₁ : Allowed (addUserToPrivateRoom g.svc r c).1 r c := by
    rw [hs₁]
    exact allowed_mset_keep g.svc _ r c (by simpa using hpriv) (contains_sadd_self _ _)
  have hjoin : handleJoinRoom g c r (some p)
      = joinRoomFinish { g with svc := (addUserToPrivateRoom g.svc r c).1 } c r := by
    simp [handleJoinRoom, getRoom, hm, hgate, hv, hpne]
  have hall₂ : Allowed (handleJoinRoom g c r (some p)).1.svc r c := by
    rw [hjoin]
    exact allowed_addUserToRoom _ r c r c hall₁
  refine ⟨?_, ⟨?_, ?_, hall₂⟩, ?_⟩
  · intro cand hcand
    cases cand with
    | none => simp [handleJoinRoom, getRoom, hm, hgate]
    | some q =>
      have hq : q ≠ p := fun hh => hcand (by rw [hh])
      by_cases hq0 : q = ""
      · subst hq0
        simp [handleJoinRoom, getRoom, hm, hgate]
      · have hvq : verifyRoomPassword g.svc r q = false := by
          simp [verifyRoomPassword, hm, hpriv, hpw]
          exact fun hh => hq (by rw [hh])
        simp [handleJoinRoom, getRoom, hm, hgate, hvq]
  · rw [hjoin]
    rfl
  · rw [hjoin]
    refine chatMember_addUserToRoom _ r c ({ room with allowedUsers := sadd room.allowedUsers c }) ?_
    rw [hs₁]
    exact mget_mset_self _ _ _
  · intro es hes
    have hall₃ : Allowed (chatRun (handleJoinRoom g c r (some p)).1 es).svc r c :=
      allowed_run es _ r c hall₂ hes
    exact join_when_allowed _ r c none hall₃

/-- Counterexample to claim C6 as stated: the private room "secret" is created
with the password argument "" and "b" is not on its allow-list, yet "b"
joining with exactly the stored password "" is rejected as Unauthorized (and
nothing changes), because the guard `password && verifyRoomPassword(...)`
treats the empty candidate string as falsy. -/
theorem claim_C6_password_join_cex :
    getRoom c6State.svc "secret" = some
      ({ users := [], messages := [], isPrivate := true, password := some "",
         allowedUsers := ["a"], creatorId := "a" } : Room) ∧
    canAccessRoom c6State.svc "secret" "b" = false ∧
    handleJoinRoom c6State "b" "secret" (some "") =
      (c6State, [Emission.toClient "b" "error" "Unauthorized"]) := by
  refine ⟨by decide, by decide, by decide⟩

/-- Concrete instance of claim C6's (amended) statement on the room "secret"
with password "x": a passwordless join is rejected, a join with "x"
succeeds and yields membership. -/
theorem claim_C6_password_join_witness :
    getRoom c6GoodState.svc "secret" = some c6GoodRoom ∧
    c6GoodRoom.isPrivate = true ∧ c6GoodRoom.password = some "x" ∧
    canAccessRoom c6GoodState.svc "secret" "b" = false ∧
    handleJoinRoom c6GoodState "b" "secret" none
      = (c6GoodState, [Emission.toClient "b" "error" "Unauthorized"]) ∧
    (handleJoinRoom c6GoodState "b" "secret" (some "x")).2
      = [Emission.toGroup "secret" "room_users"] ∧
    chatMember (handleJoinRoom c6GoodState "b" "secret" (some "x")).1.svc "secret" "b" = true :=
  have hmain := claim_C6_password_join c6GoodState "secret" "b" "x" c6GoodRoom
    (by decide) rfl rfl (by decide) (by decide)
  ⟨by decide, rfl, rfl, by decide, hmain.1 none (by decide), hmain.2.1.1, hmain.2.1.2.1⟩

/-- Counterexample to claim C3 as stated, failing at two independent inputs.
First: createWebRtcTransport for an absent participant in an absent room
fails with a not-found error, yet mutates the voice state — it leaves behind
a freshly created VoiceRoom entry with zero participants (getOrCreateRouter
runs before the participant check). Second: produce invoked with transport
id 99 — c5Send's only transport has id 1, so 99 exists nowhere — does not
fail at all: the source never compares its transportId argument, so the call
succeeds and stores a new producer on the participant. -/
theorem claim_C3_not_found_cex :
    (mget VoiceState.init.voiceRooms "r" = none ∧
      (createWebRtcTransport VoiceState.init "r" "u" Direction.send).2
        = Except.error "User not found" ∧
      mget (createWebRtcTransport VoiceState.init "r" "u" Direction.send).1.voiceRooms "r"
        = some ({ roomId := "r", router := { id := 0 }, users := [] } : VoiceRoom)) ∧
    ((voiceUserOf c5Send "r" "a").map (fun v => (v.producerTransport, v.consumerTransport))
        = some (some ({ id := 1, connected := false } : TransportModel), none) ∧
      (voiceUserOf c5Send "r" "a").map (fun v => v.producer) = some none ∧
      (produce c5Send "r" "a" 99 MediaKind.audio 0).2
        = Except.ok ({ id := 2, paused := false } : ProducerModel) ∧
      (voiceUserOf (produce c5Send "r" "a" 99 MediaKind.audio 0).1 "r" "a").map
          (fun v => v.producer)
        = some (some ({ id := 2, paused := false } : ProducerModel))) :=
  ⟨⟨rfl, rfl, rfl⟩, rfl, rfl, rfl, rfl⟩

/-- Claim C3 (amended): operations invoked with an absent participant fail
with a not-found error and leave the state unchanged (for
createWebRtcTransport: the voice-room table unchanged, the engine transport
it already created being dropped), and the same holds for
connectWebRtcTransport with a transport id matching neither slot,
resumeConsumer with an absent consumer id, and consume with a producer id
the router does not report consumable; operations on an absent room fail
unchanged too (leave being a silent no-op). TWO exceptions: (1)
createWebRtcTransport (via getOrCreateRouter, like getRouterRtpCapabilities)
first creates the missing room, so its participant-not-found failure leaves
a new zero-participant VoiceRoom behind; (2) produce never compares its
transportId argument at all — invoked with ANY transport id, existent or
not, it succeeds and stores a fresh producer whenever the participant holds
a send transport. -/
theorem claim_C3_not_found (cc : Nat → Nat → Nat → Bool) (st : VoiceState)
    (r u : String) (room : VoiceRoom) (vu : VoiceUser)
    (tid cid pid dtls caps rtp : Nat) (k : MediaKind) (d : Direction) (m : Bool) :
    (mget st.voiceRooms r = some room → mget room.users u = none →
      connectWebRtcTransport st r u tid dtls = (st, Except.error "User not found") ∧
      produce st r u tid k rtp = (st, Except.error "User or transport not found") ∧
      (cc room.router.id pid caps = true →
        consume cc st r u pid caps = (st, Except.error "User or transport not found")) ∧
      resumeConsumer st r u cid = (st, Except.error "User not found") ∧
      toggleMute st r u m = (st, Except.error "User not found in voice room") ∧
      ((createWebRtcTransport st r u d).2 = Except.error "User not found" ∧
        (createWebRtcTransport st r u d).1.voiceRooms = st.voiceRooms)) ∧
    (mget st.voiceRooms r = none →
      connectWebRtcTransport st r u tid dtls = (st, Except.error "Voice room not found") ∧
      produce st r u tid k rtp = (st, Except.error "Voice room not found") ∧
      consume cc st r u pid caps = (st, Except.error "Voice room not found") ∧
      resumeConsumer st r u cid = (st, Except.error "Voice room not found") ∧
      toggleMute st r u m = (st, Except.error "Voice room not found") ∧
      leaveVoiceChannel st r u = st ∧
      ((createWebRtcTransport st r u d).2 = Except.error "User not found" ∧
        mget (createWebRtcTransport st r u d).1.voiceRooms r
          = some ({ roomId := r, router := { id := st.nextId }, users := [] } : VoiceRoom))) ∧
    (mget st.voiceRooms r = some room → mget room.users u = some vu →
      (vu.producerTransport.any (fun t => t.id == tid) = false →
        vu.consumerTransport.any (fun t => t.id == tid) = false →
        connectWebRtcTransport st r u tid dtls = (st, Except.error "Transport not found")) ∧
      (mget vu.consumers cid = none →
        resumeConsumer st r u cid = (st, Except.error "Consumer not found")) ∧
      (cc room.router.id pid caps = false →
        consume cc st r u pid caps = (st, Except.error "Cannot consume")) ∧
      (∀ t : TransportModel, vu.producerTransport = some t →
        (produce st r u tid k rtp).2
          = Except.ok ({ id := st.nextId, paused := false } : ProducerModel) ∧
        (voiceUserOf (produce st r u tid k rtp).1 r u).map (fun v => v.producer)
          = some (some ({ id := st.nextId, paused := false } : ProducerModel)))) := by
  refine ⟨?_, ?_, ?_⟩
  · intro hroom huser
    refine ⟨?_, ?_, ?_, ?_, ?_, ?_, ?_⟩
    · simp [connectWebRtcTransport, hroom, huser]
    · simp [produce, hroom, huser]
    · intro hcc
      simp [consume, hroom, hcc, huser]
    · simp [resumeConsumer, hroom, huser]
    · simp [toggleMute, hroom, huser]
    · simp [createWebRtcTransport, getOrCreateRouter, hroom, setUserTransport, huser]
    · simp [createWebRtcTransport, getOrCreateRouter, hroom, setUserTransport, huser]
  · intro hnone
    refine ⟨?_, ?_, ?_, ?_, ?_, ?_, ?_, ?_⟩
    · simp [connectWebRtcTransport, hnone]
    · simp [produce, hnone]
    · simp [consume, hnone]
    · simp [resumeConsumer, hnone]
    · simp [toggleMute, hnone]
    · simp [leaveVoiceChannel, hnone]
    · simp [createWebRtcTransport, getOrCreateRouter, hnone, setUserTransport, mget_mset_self,
        mget]
    · simp [createWebRtcTransport, getOrCreateRouter, hnone, setUserTransport, mget_mset_self,
        mget]
  · intro hroom huser
    refine ⟨?_, ?_, ?_, ?_⟩
    · intro hpt hct
      simp [connectWebRtcTransport, hroom, huser, hpt, hct]
    · intro hcons
      simp [resumeConsumer, hroom, huser, hcons]
    · intro hcc
      simp [consume, hroom, hcc]
    · intro t ht
      constructor
      · simp [produce, hroom, huser, ht]
      · simp [produce, hroom, huser, ht, voiceUserOf, mget_mset_self]

/-- Concrete instances of claim C3's (amended) statement: the hypothesis
bundles discharged on the empty state, on a room with zero participants, on
a room whose only participant has no transports and no consumers, and — for
the produce exception — on a room whose participant holds send transport 1
while produce is invoked with the nonexistent transport id 99. -/
theorem claim_C3_not_found_witness :
    (produce v3Empty "r" "u" 0 MediaKind.audio 0
        = (v3Empty, Except.error "User or transport not found") ∧
      toggleMute v3Empty "r" "u" true
        = (v3Empty, Except.error "User not found in voice room")) ∧
    (produce VoiceState.init "r" "u" 0 MediaKind.audio 0
        = (VoiceState.init, Except.error "Voice room not found") ∧
      leaveVoiceChannel VoiceState.init "r" "u" = VoiceState.init) ∧
    (connectWebRtcTransport v3Joined "r" "a" 99 0
        = (v3Joined, Except.error "Transport not found") ∧
      resumeConsumer v3Joined "r" "a" 99
        = (v3Joined, Except.error "Consumer not found") ∧
      consume ccFalse v3Joined "r" "a" 0 0
        = (v3Joined, Except.error "Cannot consume")) ∧
    (produce c5Send "r" "a" 99 MediaKind.audio 0).2
      = Except.ok ({ id := 2, paused := false } : ProducerModel) :=
  have hA := claim_C3_not_found ccTrue v3Empty "r" "u"
    ({ roomId := "r", router := { id := 0 }, users := [] } : VoiceRoom)
    (freshVoiceUser "u" "U") 0 0 0 0 0 0 MediaKind.audio Direction.send true
  have hB := claim_C3_not_found ccTrue VoiceState.init "r" "u"
    ({ roomId := "r", router := { id := 0 }, users := [] } : VoiceRoom)
    (freshVoiceUser "u" "U") 0 0 0 0 0 0 MediaKind.audio Direction.send true
  have hC := claim_C3_not_found ccFalse v3Joined "r" "a" v3JoinedRoom
    (freshVoiceUser "a" "A") 99 99 0 0 0 0 MediaKind.audio Direction.send true
  have hD := claim_C3_not_found ccTrue c5Send "r" "a" c5SendRoom c5SendUser
    99 0 0 0 0 0 MediaKind.audio Direction.send true
  ⟨⟨((hA.1 rfl rfl).2.1), ((hA.1 rfl rfl).2.2.2.2.1)⟩,
   ⟨((hB.2.1 rfl).2.1), ((hB.2.1 rfl).2.2.2.2.2.1)⟩,
   ⟨((hC.2.2 rfl rfl).1 rfl rfl), ((hC.2.2 rfl rfl).2.1 rfl), ((hC.2.2 rfl rfl).2.2.1 rfl)⟩,
   ((hD.2.2 rfl rfl).2.2.2 ({ id := 1, connected := false } : TransportModel) rfl).1⟩

/-- Counterexample to claim C4 as stated: one reachable step — a
get_router_rtp_capabilities for the absent room "r" — creates a VoiceRoom
entry with zero participants, so the invariant fails. -/
theorem claim_C4_empty_room_cex :
    VoiceReachable ccTrue v3Empty ∧
    mget v3Empty.voiceRooms "r"
      = some ({ roomId := "r", router := { id := 0 }, users := [] } : VoiceRoom) :=
  ⟨VoiceReachable.step VoiceState.init (VoiceEvent.rtpCapsEv "r") VoiceReachable.init, rfl⟩

/-- Claim C4 (amended): when leaveVoiceChannel removes a room's last
participant it also closes the room's router and deletes the VoiceRoom
entry, and a join after that removal creates a brand-new room around a
fresh router (its id is the current allocation counter, distinct from the
old router's id whenever that id was allocated earlier); but the
zero-participant invariant itself does NOT hold in all reachable states:
get_router_rtp_capabilities and create_webrtc_transport on an absent room
create a VoiceRoom with zero participants. -/
theorem claim_C4_leave_last (st : VoiceState) (r u : String) (room : VoiceRoom)
    (vu : VoiceUser)
    (hroom : mget st.voiceRooms r = some room)
    (husers : room.users = [(u, vu)]) :
    mget (leaveVoiceChannel st r u).voiceRooms r = none ∧
    room.router.id ∈ (leaveVoiceChannel st r u).closedIds ∧
    (leaveVoiceChannel st r u).nextId = st.nextId ∧
    (∀ u₂ n₂ : String,
      mget (joinVoiceChannel (leaveVoiceChannel st r u) r u₂ n₂).1.voiceRooms r
        = some ({ roomId := r, router := { id := st.nextId },
                  users := [(u₂, freshVoiceUser u₂ n₂)] } : VoiceRoom)) ∧
    (room.router.id < st.nextId → st.nextId ≠ room.router.id) := by
  have hu : mget room.users u = some vu := by simp [husers, mget]
  have hdel : mdel room.users u = [] := by simp [husers, mdel]
  have hleave : leaveVoiceChannel st r u
      = { st with
          closedIds := (st.closedIds
              ++ ((match vu.producer with | some p => [p.id] | none => [])
                ++ vu.consumers.map (fun q => q.2.id)
                ++ (match vu.producerTransport with | some t => [t.id] | none => [])
                ++ (match vu.consumerTransport with | some t => [t.id] | none => [])))
            ++ [room.router.id],
          voiceRooms := mdel (mset st.voiceRooms r ({ room with users := [] })) r } := by
    simp [leaveVoiceChannel, hroom, hu, hdel]
  refine ⟨?_, ?_, ?_, ?_, fun h => Ne.symm (Nat.ne_of_lt h)⟩
  · rw [hleave]
    exact mget_mdel_self _ _
  · rw [hleave]
    simp
  · rw [hleave]
  · intro u₂ n₂
    have hnone : mget (leaveVoiceChannel st r u).voiceRooms r = none := by
      rw [hleave]
      exact mget_mdel_self _ _
    have hnext : (leaveVoiceChannel st r u).nextId = st.nextId := by rw [hleave]
    simp only [joinVoiceChannel, getOrCreateRouter, hnone, mget_mset_self, hnext,
      Option.isSome_none, Bool.false_eq_true, if_false, mget, freshVoiceUser,
      mset_mset_same]
    simp [mset]

/-- Concrete instance of claim C4's (amended) statement: "a" is the sole
participant of "r"; leaving deletes the room and closes router 0, and a
re-join by "b" builds a fresh room around router 1. -/
theorem claim_C4_leave_last_witness :
    mget v3Joined.voiceRooms "r" = some v3JoinedRoom ∧
    v3JoinedRoom.users = [("a", freshVoiceUser "a" "A")] ∧
    (mget (leaveVoiceChannel v3Joined "r" "a").voiceRooms "r" = none ∧
      (0 : Nat) ∈ (leaveVoiceChannel v3Joined "r" "a").closedIds ∧
      mget (joinVoiceChannel (leaveVoiceChannel v3Joined "r" "a") "r" "b" "B").1.voiceRooms "r"
        = some ({ roomId := "r", router := { id := 1 },
                  users := [("b", freshVoiceUser "b" "B")] } : VoiceRoom) ∧
      (1 : Nat) ≠ 0) :=
  have hmain := claim_C4_leave_last v3Joined "r" "a" v3JoinedRoom (freshVoiceUser "a" "A")
    rfl rfl
  ⟨rfl, rfl, hmain.1, hmain.2.1, hmain.2.2.2.1 "b" "B", hmain.2.2.2.2 (by decide)⟩

/-- Counterexample to claim C5 as stated: "a" joins "r", creates a send
transport, toggles mute on (no producer yet, so only the flag is stored),
then produces — the resulting producer starts UNPAUSED, not in the stored
mute intent, while the participant's mute flag is still true. -/
theorem claim_C5_mute_then_produce_cex :
    (voiceUserOf c5Muted "r" "a").map (fun v => v.isMuted) = some true ∧
    (voiceUserOf c5Muted "r" "a").map (fun v => v.producer) = some none ∧
    (produce c5Muted "r" "a" 1 MediaKind.audio 0).2
      = Except.ok ({ id := 2, paused := false } : ProducerModel) ∧
    (voiceUserOf (produce c5Muted "r" "a" 1 MediaKind.audio 0).1 "r" "a").map
        (fun v => (v.isMuted, v.producer))
      = some (true, some ({ id := 2, paused := false } : ProducerModel)) :=
  ⟨rfl, rfl, rfl, rfl⟩

/-- Claim C5 (amended): toggleMute stores the mute flag on the participant and
pauses/resumes the producer exactly when one exists, and the flag is kept
even without a producer; but a produce call issued after toggleMute(true)
yields a producer that starts UNPAUSED — the stored mute intent is not
applied to producers created later. -/
theorem claim_C5_toggleMute (st : VoiceState) (r u : String) (room : VoiceRoom)
    (vu : VoiceUser) (m : Bool)
    (hroom : mget st.voiceRooms r = some room)
    (huser : mget room.users u = some vu) :
    (toggleMute st r u m).2 = Except.ok m ∧
    voiceUserOf (toggleMute st r u m).1 r u
      = some ({ vu with
                isMuted := m,
                producer := vu.producer.map (fun pr => { pr with paused := m }) }) ∧
    (∀ tid rtp : Nat, ∀ k : MediaKind, vu.producerTransport.isSome = true →
      (produce (toggleMute st r u m).1 r u tid k rtp).2
        = Except.ok ({ id := st.nextId, paused := false } : ProducerModel) ∧
      (voiceUserOf (produce (toggleMute st r u m).1 r u tid k rtp).1 r u).map
          (fun v => (v.isMuted, v.producer))
        = some (m, some ({ id := st.nextId, paused := false } : ProducerModel))) := by
  have hstate : (toggleMute st r u m).1
      = { st with
          voiceRooms := mset st.voiceRooms r
            ({ room with
               users := mset room.users u
                 ({ vu with
                    isMuted := m,
                    producer := vu.producer.map (fun pr => { pr with paused := m }) }) }) } := by
    simp [toggleMute, hroom, huser]
  refine ⟨by simp [toggleMute, hroom, huser], ?_, ?_⟩
  · rw [hstate]
    simp [voiceUserOf, mget_mset_self]
  · intro tid rtp k hpt
    obtain ⟨t, ht⟩ := Option.isSome_iff_exists.mp hpt
    rw [hstate]
    constructor
    · simp [produce, mget_mset_self, ht]
    · simp [produce, mget_mset_self, ht, voiceUserOf, mset_mset_same]

/-- Concrete instance of claim C5's (amended) statement on the c5Send state:
toggling mute on stores the flag, and a later produce starts unpaused. -/
theorem claim_C5_toggleMute_witness :
    mget c5Send.voiceRooms "r" = some c5SendRoom ∧
    mget c5SendRoom.users "a" = some c5SendUser ∧
    ((toggleMute c5Send "r" "a" true).2 = Except.ok true ∧
      voiceUserOf (toggleMute c5Send "r" "a" true).1 "r" "a"
        = some ({ c5SendUser with isMuted := true }) ∧
      (produce (toggleMute c5Send "r" "a" true).1 "r" "a" 1 MediaKind.audio 0).2
        = Except.ok ({ id := 2, paused := false } : ProducerModel)) :=
  have hmain := claim_C5_toggleMute c5Send "r" "a" c5SendRoom c5SendUser true rfl rfl
  ⟨rfl, rfl, hmain.1, hmain.2.1, (hmain.2.2 1 0 MediaKind.audio rfl).1⟩

/-- Claim C7: consume succeeds iff the room exists, its router reports the
producer id consumable under the supplied rtpCapabilities, the participant
exists, and the participant has a receive-direction transport; on success
the returned consumer is created paused, carries the requested producer id,
and is stored in the participant's consumer map keyed by its own id. -/
theorem claim_C7_consume_spec (cc : Nat → Nat → Nat → Bool) (st : VoiceState)
    (r u : String) (pid caps : Nat) :
    ((∃ res, (consume cc st r u pid caps).2 = Except.ok res) ↔
      (∃ room vu, mget st.voiceRooms r = some room ∧ cc room.router.id pid caps = true ∧
        mget room.users u = some vu ∧ vu.consumerTransport.isSome = true)) ∧
    (∀ res, (consume cc st r u pid caps).2 = Except.ok res →
      res = ({ id := st.nextId, producerId := pid, paused := true } : ConsumerModel) ∧
      (voiceUserOf (consume cc st r u pid caps).1 r u).map
          (fun v => mget v.consumers res.id)
        = some (some res)) := by
  cases hroom : mget st.voiceRooms r with
  | none => simp [consume, hroom]
  | some room =>
    cases hcc : cc room.router.id pid caps with
    | false => simp [consume, hroom, hcc]
    | true =>
      cases huser : mget room.users u with
      | none => simp [consume, hroom, hcc, huser]
      | some vu =>
        cases hct : vu.consumerTransport with
        | none => simp [consume, hroom, hcc, huser, hct]
        | some t =>
          constructor
          · constructor
            · intro _
              exact ⟨room, vu, rfl, hcc, huser, by simp [hct]⟩
            · intro _
              exact ⟨({ id := st.nextId, producerId := pid, paused := true } : ConsumerModel),
                by simp [consume, hroom, hcc, huser, hct]⟩
          · intro res hres
            have hres' : res = ({ id := st.nextId, producerId := pid, paused := true } :
                ConsumerModel) := by
              have := hres
              simp [consume, hroom, hcc, huser, hct] at this
              exact this.symm
            subst hres'
            refine ⟨rfl, ?_⟩
            simp [consume, hroom, hcc, huser, hct, voiceUserOf, mget_mset_self]

/-- Concrete instance of claim C7's statement: participant "b" with a receive
transport consumes producer id 7 under an accepting canConsume; the stored
consumer is paused and keyed by its id 2. -/
theorem claim_C7_consume_spec_witness :
    (consume ccTrue c7Recv "r" "b" 7 0).2
      = Except.ok ({ id := 2, producerId := 7, paused := true } : ConsumerModel) ∧
    (({ id := 2, producerId := 7, paused := true } : ConsumerModel)
        = ({ id := c7Recv.nextId, producerId := 7, paused := true } : ConsumerModel) ∧
      (voiceUserOf (consume ccTrue c7Recv "r" "b" 7 0).1 "r" "b").map
          (fun v => mget v.consumers 2)
        = some (some ({ id := 2, producerId := 7, paused := true } : ConsumerModel))) :=
  have hmain := claim_C7_consume_spec ccTrue c7Recv "r" "b" 7 0
  ⟨rfl, hmain.2 ({ id := 2, producerId := 7, paused := true } : ConsumerModel) rfl⟩

/-- Claim C9: consume never checks who owns the requested producer id — a
participant with a receive transport can consume every producer the router
reports consumable, including their own — while getProducersForUser always
excludes the calling participant's own entry from the discovery list. -/
theorem claim_C9_consume_own_producer (cc : Nat → Nat → Nat → Bool) (st : VoiceState)
    (r u : String) (caps : Nat) (room : VoiceRoom) (vu : VoiceUser) (p : ProducerModel)
    (hroom : mget st.voiceRooms r = some room)
    (huser : mget room.users u = some vu)
    (_hprod : vu.producer = some p)
    (hct : vu.consumerTransport.isSome = true)
    (hcc : cc room.router.id p.id caps = true) :
    (consume cc st r u p.id caps).2
      = Except.ok ({ id := st.nextId, producerId := p.id, paused := true } : ConsumerModel) ∧
    (∀ info ∈ getProducersForUser st r u, info.userId ≠ u) := by
  obtain ⟨t, ht⟩ := Option.isSome_iff_exists.mp hct
  constructor
  · simp [consume, hroom, hcc, huser, ht]
  · intro info hin
    simp only [getProducersForUser, hroom] at hin
    obtain ⟨q, hq, heq⟩ := List.mem_filterMap.mp hin
    by_cases hqu : q.1 ≠ u
    · rw [if_pos hqu] at heq
      cases hp : q.2.producer with
      | none => rw [hp] at heq; cases heq
      | some producer =>
        rw [hp] at heq
        cases heq
        exact hqu
    · rw [if_neg hqu] at heq
      cases heq

/-- Concrete instance of claim C9's statement: "a" holds producer 3 and a
receive transport; consuming their own producer succeeds while the
discovery list for "a" is empty. -/
theorem claim_C9_consume_own_producer_witness :
    (consume ccTrue c9s4 "r" "a" 3 0).2
      = Except.ok ({ id := 4, producerId := 3, paused := true } : ConsumerModel) ∧
    getProducersForUser c9s4 "r" "a" = [] :=
  ⟨(claim_C9_consume_own_producer ccTrue c9s4 "r" "a" 0 c9Room c9User
      ({ id := 3, paused := false } : ProducerModel) rfl rfl rfl rfl rfl).1,
   rfl⟩

end ApiGroupChat
